import Mathlib

/- Shallow embedding of the hover-preview lifecycle controller of
   src/extension.js: the `PreviewStateMachine` class, the `PreviewRegistry`
   singleton and the `WindowPreview` callback table it is wired to.

   Machine-integer concerns do not arise: all the modelled state is booleans,
   an enumerated state and a trace of callback invocations.  GLib timer
   handles are modelled by a boolean "the handle field is non-null"; the
   identity of the numeric source id is irrelevant to every property below.
   `journal` logging is I/O only and is not modelled, except that invocations
   of the owner callback table (onShowPreview / onShowTitle / onHideAll /
   onForceIdle) are recorded in an event log so that ordering and
   exactly-once properties are statable. -/

namespace WorkspacesOrganizer

/-- The `States` enum of src/extension.js (lines 23-28). -/
inductive States where
  | IDLE
  | SHOWING_PREVIEW
  | SHOWING_TITLE
  | CLEANUP_DELAY
deriving DecidableEq, Repr

/-- Callback-table invocations recorded for ordering/once properties:
`onShowPreview`, `onShowTitle`, `onHideAll`, `onForceIdle`. -/
inductive Ev where
  | showPreviewCb
  | showTitleCb
  | hideAllCb
  | forceIdleCb
deriving DecidableEq, Repr

/-- One controller's combined configuration: the `PreviewStateMachine`
fields (`_state`, `_ctrlPollId`, `_cleanupTimeoutId`, `_ctrlPressed`), the
owning `WindowPreview` fields the callbacks read and write (`_hoverPreview`,
`_titlePopup`, `this.hover`, the overlays' `hover` flags, the debounce
handle `_hoverTimeoutId`), and the registry bit `registered` meaning
`PreviewRegistry.activePreview === this` for the single-controller system.
Timer-handle fields are `true` iff the JS field is non-null. -/
structure Cfg where
  state : States
  ctrlPollId : Bool
  cleanupTimeoutId : Bool
  ctrlPressed : Bool
  hoverPreview : Bool
  titlePopup : Bool
  hover : Bool
  previewHover : Bool
  titleHover : Bool
  hoverTimeoutId : Bool
  registered : Bool
  log : List Ev
deriving DecidableEq, Repr

namespace Cfg

/-- The freshly constructed controller: `PreviewStateMachine` constructor
(lines 61-73) plus `WindowPreview` constructor fields. -/
def init : Cfg :=
  { state := States.IDLE
    ctrlPollId := false
    cleanupTimeoutId := false
    ctrlPressed := false
    hoverPreview := false
    titlePopup := false
    hover := false
    previewHover := false
    titleHover := false
    hoverTimeoutId := false
    registered := false
    log := [] }

end Cfg

/-- `get isShowingPreview` (lines 79-81): state is one of the two showing
states. -/
def isShowingPreview (c : Cfg) : Bool :=
  c.state == States.SHOWING_PREVIEW || c.state == States.SHOWING_TITLE

/-- `_stopCtrlPoll` (lines 307-320): nulls the handle field (the GLib
source-removal bookkeeping has no further modelled effect). -/
def stopCtrlPoll (c : Cfg) : Cfg :=
  { c with ctrlPollId := false }

/-- `_stopCleanupTimer` (lines 401-407). -/
def stopCleanupTimer (c : Cfg) : Cfg :=
  { c with cleanupTimeoutId := false }

/-- `hasPreview` callback wired in the `WindowPreview` constructor
(line 460): `!!this._hoverPreview`. -/
def hasPreviewCb (c : Cfg) : Bool := c.hoverPreview

/-- `hasTitle` callback (line 461): `!!this._titlePopup`. -/
def hasTitleCb (c : Cfg) : Bool := c.titlePopup

/-- `WindowPreview._shouldAbortCleanup` (lines 578-588): icon hovered OR
preview overlay hovered OR title overlay hovered, with `?.hover || false`
reading false when the overlay does not exist. -/
def shouldAbortCleanup (c : Cfg) : Bool :=
  let iconHovered := c.hover
  let previewHovered := if c.hoverPreview then c.previewHover else false
  let titleHovered := if c.titlePopup then c.titleHover else false
  iconHovered || previewHovered || titleHovered

/-- `WindowPreview._hideHoverPreview` (lines 806-821): destroys the preview
overlay actor when present (its hover flag disappears with it). -/
def hideHoverPreview (c : Cfg) : Cfg :=
  if c.hoverPreview then { c with hoverPreview := false, previewHover := false } else c

/-- `WindowPreview._hideTitlePopup` (lines 823-838). -/
def hideTitlePopup (c : Cfg) : Cfg :=
  if c.titlePopup then { c with titlePopup := false, titleHover := false } else c

/-- `WindowPreview._hideAllPreviews` (lines 840-844), the machine's
`onHideAll` callback; the invocation is logged. -/
def hideAllPreviews (c : Cfg) : Cfg :=
  hideTitlePopup (hideHoverPreview { c with log := c.log ++ [Ev.hideAllCb] })

/-- The `onForceIdle` callback (lines 462-464):
`PreviewRegistry.unregisterPreview(this)` (lines 50-55), which clears the
active slot only when it records this controller; either way the slot no
longer records this controller afterwards. -/
def onForceIdleCb (c : Cfg) : Cfg :=
  { c with log := c.log ++ [Ev.forceIdleCb], registered := false }

/-- `_startCtrlPoll` (lines 281-302): stop any running poll, then schedule
the repeating poll only when the content predicate for the current state
holds. -/
def startCtrlPoll (c : Cfg) : Cfg :=
  let c := stopCtrlPoll c
  let hasPreviewContent :=
    (c.state == States.SHOWING_PREVIEW && hasPreviewCb c) ||
    (c.state == States.SHOWING_TITLE && hasTitleCb c)
  if !hasPreviewContent then c
  else { c with ctrlPollId := true }

/-- `_startCleanupTimer` (lines 372-377 head): stop any previous cleanup
timer and schedule a fresh one.  The timer body is `cleanupTimerFired`
below, run as a separate event when the timer fires. -/
def startCleanupTimer (c : Cfg) : Cfg :=
  let c := stopCleanupTimer c
  { c with cleanupTimeoutId := true }

/-- `WindowPreview._showHoverPreview` (lines 592-741), the machine's
`onShowPreview` callback.  The overlay-geometry construction is pure
rendering; the modelled effects are: hide the title popup, keep an existing
preview, abort and stop the Ctrl poll when the mouse already left, and
otherwise materialise the preview overlay (whose fresh actor is not yet
hovered). -/
def showHoverPreview (c : Cfg) : Cfg :=
  let c := { c with log := c.log ++ [Ev.showPreviewCb] }
  let c := hideTitlePopup c
  if c.hoverPreview then c
  else if !c.hover && (!c.hoverPreview || !c.previewHover) then stopCtrlPoll c
  else
    let shouldShow := c.hover || (c.hoverPreview && c.previewHover) ||
      (c.state == States.SHOWING_PREVIEW)
    if !shouldShow then c
    else { c with hoverPreview := true, previewHover := false }

/-- `WindowPreview._showTitlePopup` (lines 743-804), the machine's
`onShowTitle` callback: hide the hover preview, keep an existing popup,
abort and stop the Ctrl poll when the mouse already left, otherwise
materialise the title popup. -/
def showTitlePopup (c : Cfg) : Cfg :=
  let c := { c with log := c.log ++ [Ev.showTitleCb] }
  let c := hideHoverPreview c
  if c.titlePopup then c
  else if !c.hover then stopCtrlPoll c
  else { c with titlePopup := true, titleHover := false }

/-- `_exitState` (lines 124-147).  Note: `transition` calls this BEFORE
updating `this._state`, and the `isStayingInPreview` test reads
`this._state` (here `c.state`), which therefore still holds the OLD state
at that point. -/
def exitState (c : Cfg) (state : States) : Cfg :=
  match state with
  | States.CLEANUP_DELAY => stopCleanupTimer c
  | States.SHOWING_PREVIEW | States.SHOWING_TITLE =>
      let isStayingInPreview :=
        c.state == States.SHOWING_PREVIEW || c.state == States.SHOWING_TITLE
      if !isStayingInPreview then stopCtrlPoll c else c
  | States.IDLE => c

/-- `_enterState` (lines 152-184): unconditionally stop the cleanup timer,
then run the enter action of the new state. -/
def enterState (c : Cfg) (state : States) : Cfg :=
  let c := stopCleanupTimer c
  match state with
  | States.SHOWING_PREVIEW =>
      let c := showHoverPreview c
      if !c.ctrlPollId then startCtrlPoll c else c
  | States.SHOWING_TITLE =>
      let c := showTitlePopup c
      if !c.ctrlPollId then startCtrlPoll c else c
  | States.CLEANUP_DELAY => startCleanupTimer c
  | States.IDLE => hideAllPreviews c

/-- The `validTransitions` table inside `transition` (lines 95-100). -/
def validTransitions (s : States) : List States :=
  match s with
  | States.IDLE => [States.SHOWING_PREVIEW, States.SHOWING_TITLE]
  | States.SHOWING_PREVIEW => [States.SHOWING_TITLE, States.CLEANUP_DELAY, States.IDLE]
  | States.SHOWING_TITLE => [States.SHOWING_PREVIEW, States.CLEANUP_DELAY, States.IDLE]
  | States.CLEANUP_DELAY => [States.IDLE, States.SHOWING_PREVIEW, States.SHOWING_TITLE]

/-- Whether `transition` logs its invalid-transition warning (line 102):
the pair is absent from the table.  Logging only; no behavioural effect. -/
def transitionWarns (oldState newState : States) : Bool :=
  !(validTransitions oldState).contains newState

/-- `transition` (lines 86-119): self-transition returns early; otherwise
the table lookup only warns, then exit old state, update `_state`, enter
new state. -/
def transition (c : Cfg) (newState : States) : Cfg :=
  let oldState := c.state
  if oldState == newState then c
  else
    let c := exitState c oldState
    let c := { c with state := newState }
    enterState c newState

/-- `forceIdle` (lines 256-265): invoke the owner's `onForceIdle` callback
(registry unregistration), then transition to IDLE.  (`_callbacks` is
non-null for every live, undestroyed machine.) -/
def forceIdle (c : Cfg) : Cfg :=
  let c := onForceIdleCb c
  transition c States.IDLE

/-- `_checkCtrlKeyState` (lines 272-276): sample the physical Ctrl state
(an external input, passed in as `ctrlNow`). -/
def checkCtrlKeyState (c : Cfg) (ctrlNow : Bool) : Cfg :=
  { c with ctrlPressed := ctrlNow }

/-- `onIconHoverEnter` (lines 189-208). -/
def onIconHoverEnter (c : Cfg) (ctrlNow : Bool) : Cfg :=
  if c.state == States.CLEANUP_DELAY then
    let c := checkCtrlKeyState c ctrlNow
    transition c (if c.ctrlPressed then States.SHOWING_TITLE else States.SHOWING_PREVIEW)
  else if c.state == States.IDLE then
    let c := checkCtrlKeyState c ctrlNow
    transition c (if c.ctrlPressed then States.SHOWING_TITLE else States.SHOWING_PREVIEW)
  else c

/-- `onIconHoverLeave` (lines 213-220). -/
def onIconHoverLeave (c : Cfg) : Cfg :=
  if c.state == States.SHOWING_PREVIEW || c.state == States.SHOWING_TITLE then
    transition c States.CLEANUP_DELAY
  else c

/-- `onPreviewHoverEnter` (lines 225-237). -/
def onPreviewHoverEnter (c : Cfg) (ctrlNow : Bool) : Cfg :=
  if c.state == States.CLEANUP_DELAY then
    let c := checkCtrlKeyState c ctrlNow
    transition c (if c.ctrlPressed then States.SHOWING_TITLE else States.SHOWING_PREVIEW)
  else c

/-- `onPreviewHoverLeave` (lines 242-251). -/
def onPreviewHoverLeave (c : Cfg) (iconHovered : Bool) : Cfg :=
  if !iconHovered && isShowingPreview c then
    transition c States.CLEANUP_DELAY
  else c

/-- Body of the cleanup timer scheduled by `_startCleanupTimer`
(lines 380-394), run when the timer fires: consult `shouldAbortCleanup`;
on abort only null the handle (the state is untouched); otherwise
transition to IDLE and null the handle.  Either way the one-shot source is
removed. -/
def cleanupTimerFired (c : Cfg) : Cfg :=
  if shouldAbortCleanup c then { c with cleanupTimeoutId := false }
  else
    let c := transition c States.IDLE
    { c with cleanupTimeoutId := false }

/-- `_onCtrlPollTick` (lines 325-365): the repeating poll body.  Returns
the configuration and the `GLib.SOURCE_CONTINUE` flag.  Note that the
missing-content branch runs `forceIdle` and returns `SOURCE_REMOVE`
without nulling `_ctrlPollId`. -/
def onCtrlPollTick (c : Cfg) (ctrlNow : Bool) : Cfg × Bool :=
  if !isShowingPreview c then (stopCtrlPoll c, false)
  else
    let hasPreview :=
      (c.state == States.SHOWING_PREVIEW && hasPreviewCb c) ||
      (c.state == States.SHOWING_TITLE && hasTitleCb c)
    if !hasPreview then (forceIdle c, false)
    else if !isShowingPreview c then (stopCtrlPoll c, false)
    else
      let ctrlDown := ctrlNow
      if ctrlDown != c.ctrlPressed then
        let c := { c with ctrlPressed := ctrlDown }
        let c :=
          if c.state == States.SHOWING_PREVIEW && ctrlDown then
            transition c States.SHOWING_TITLE
          else if c.state == States.SHOWING_TITLE && !ctrlDown then
            transition c States.SHOWING_PREVIEW
          else c
        (c, true)
      else (c, true)

/-- `PreviewRegistry.registerPreview(this)` as called from this controller's
own hover handler (lines 492 and 511): in the single-controller system the
active slot is either empty or already this controller, so the
clean-up-other branch is vacuous and the call records this controller. -/
def registerSelf (c : Cfg) : Cfg :=
  { c with registered := true }

/-- The `notify::hover` handler of the icon (lines 479-524): record the new
hover flag, clear any pending debounce, handle showing/cleanup states
immediately, otherwise debounce an enter from IDLE (30 ms) and pass a
leave straight through. -/
def onHoverChanged (c : Cfg) (newHover ctrlNow : Bool) : Cfg :=
  let c := { c with hover := newHover }
  let c := if c.hoverTimeoutId then { c with hoverTimeoutId := false } else c
  if isShowingPreview c || c.state == States.CLEANUP_DELAY then
    if c.hover then onIconHoverEnter (registerSelf c) ctrlNow
    else onIconHoverLeave c
  else
    if c.hover then { c with hoverTimeoutId := true }
    else onIconHoverLeave c

/-- Body of the 30 ms debounce timeout scheduled by the hover handler
(lines 503-519), run when it fires: null the handle, then act only when
the machine is still IDLE. -/
def onHoverDebounceFired (c : Cfg) (ctrlNow : Bool) : Cfg :=
  let c := { c with hoverTimeoutId := false }
  if c.state == States.IDLE then onIconHoverEnter (registerSelf c) ctrlNow
  else c

/-- The preview overlay's `notify::hover` handler (lines 719-729); the
signal can only fire while the overlay actor exists. -/
def onPreviewOverlayHover (c : Cfg) (h ctrlNow : Bool) : Cfg :=
  if c.hoverPreview then
    let c := { c with previewHover := h }
    if h then onPreviewHoverEnter c ctrlNow
    else onPreviewHoverLeave c c.hover
  else c

/-- The title popup's `notify::hover` handler (lines 791-801). -/
def onTitleOverlayHover (c : Cfg) (h ctrlNow : Bool) : Cfg :=
  if c.titlePopup then
    let c := { c with titleHover := h }
    if h then onPreviewHoverEnter c ctrlNow
    else onPreviewHoverLeave c c.hover
  else c

/-- External events of the single-controller closed system.  `click` covers
the button-press handlers (lines 544-576) and `workspaceSwitched` the
workspace-switch handler (lines 531-539); both run `forceIdle`.  Timer
events carry the sampled Ctrl state where the body queries it. -/
inductive Event where
  | hoverChanged (h ctrl : Bool)
  | debounceFired (ctrl : Bool)
  | pollTick (ctrl : Bool)
  | cleanupFired
  | previewOverlayHover (h ctrl : Bool)
  | titleOverlayHover (h ctrl : Bool)
  | click
  | workspaceSwitched
deriving DecidableEq, Repr

/-- One event step.  Timer events are guarded on their handle being live
(a scheduled source exists exactly when the handle field is set along the
traces used here). -/
def stepEv (c : Cfg) (e : Event) : Cfg :=
  match e with
  | Event.hoverChanged h ctrl => onHoverChanged c h ctrl
  | Event.debounceFired ctrl => if c.hoverTimeoutId then onHoverDebounceFired c ctrl else c
  | Event.pollTick ctrl => if c.ctrlPollId then (onCtrlPollTick c ctrl).1 else c
  | Event.cleanupFired => if c.cleanupTimeoutId then cleanupTimerFired c else c
  | Event.previewOverlayHover h ctrl => onPreviewOverlayHover c h ctrl
  | Event.titleOverlayHover h ctrl => onTitleOverlayHover c h ctrl
  | Event.click => forceIdle c
  | Event.workspaceSwitched => forceIdle c

/-- Run a list of events from a configuration. -/
def run (c : Cfg) (es : List Event) : Cfg :=
  es.foldl stepEv c

/-- Icon hovered while idle, Ctrl up, then the debounce fires: the canonical
way into SHOWING_PREVIEW with overlay and poll up. -/
def traceShowPreview : List Event :=
  [Event.hoverChanged true false, Event.debounceFired false]

/-- After showing the preview, the icon hover leaves: into CLEANUP_DELAY. -/
def traceToCleanup : List Event :=
  traceShowPreview ++ [Event.hoverChanged false false]

/-- In CLEANUP_DELAY with the icon no longer hovered, the mouse enters the
still-present preview overlay while Ctrl is held: `onPreviewHoverEnter`
re-enters SHOWING_TITLE, whose `onShowTitle` callback aborts (icon not
hovered), so no title content exists when the poll would restart. -/
def traceTitleNoPoll : List Event :=
  traceToCleanup ++ [Event.previewOverlayHover true true]

/-- The registry with two controllers A and B: `PreviewRegistry.activePreview`
(lines 30-56) is empty or records one of them. -/
inductive Slot where
  | empty
  | ctlA
  | ctlB
deriving DecidableEq, Repr

/-- Two-controller system: A's and B's configurations plus the registry's
active slot. -/
structure RegSys where
  mA : Cfg
  mB : Cfg
  active : Slot
deriving DecidableEq, Repr

/-- `forceIdle` on controller A at system level: A's `onForceIdle` callback
runs `unregisterPreview(A)`, which clears the slot only when it records A
(lines 50-55). -/
def RegSys.forceIdleA (s : RegSys) : RegSys :=
  { s with
    mA := forceIdle s.mA
    active := if s.active == Slot.ctlA then Slot.empty else s.active }

/-- `PreviewRegistry.registerPreview(B)` (lines 33-48): when a different
controller (A) is active and its machine is showing UI
(`isShowingPreview`, i.e. SHOWING_PREVIEW or SHOWING_TITLE, or
CLEANUP_DELAY) force it to idle first, else skip; then record B as
active. -/
def RegSys.registerPreviewB (s : RegSys) : RegSys :=
  let s1 :=
    if s.active == Slot.ctlA then
      if isShowingPreview s.mA || s.mA.state == States.CLEANUP_DELAY then
        RegSys.forceIdleA s
      else s
    else s
  { s1 with active := Slot.ctlB }

/-- A two-controller registry system with A showing a preview (reached by
the canonical hover trace) and B freshly constructed. -/
def sysAB : RegSys :=
  { mA := run Cfg.init traceShowPreview, mB := Cfg.init, active := Slot.ctlA }

/-- A configuration in SHOWING_TITLE with no title content, as the content
check of `_startCtrlPoll` sees it. -/
def cfgTitleNoContent : Cfg :=
  { Cfg.init with state := States.SHOWING_TITLE }

/- Helper lemmas: the state, registry-bit and log fields under each
operation. -/

theorem hideHoverPreview_state (c : Cfg) : (hideHoverPreview c).state = c.state := by
  unfold hideHoverPreview; split <;> rfl

theorem hideTitlePopup_state (c : Cfg) : (hideTitlePopup c).state = c.state := by
  unfold hideTitlePopup; split <;> rfl

theorem hideAllPreviews_state (c : Cfg) : (hideAllPreviews c).state = c.state := by
  unfold hideAllPreviews
  rw [hideTitlePopup_state, hideHoverPreview_state]

theorem showHoverPreview_state (c : Cfg) : (showHoverPreview c).state = c.state := by
  obtain ⟨st, pl, cl, cp, hp, tp, hov, ph, th, hti, reg, lg⟩ := c
  cases hp <;> cases tp <;> cases hov <;> cases ph <;>
    simp [showHoverPreview, hideTitlePopup, stopCtrlPoll]

theorem showTitlePopup_state (c : Cfg) : (showTitlePopup c).state = c.state := by
  obtain ⟨st, pl, cl, cp, hp, tp, hov, ph, th, hti, reg, lg⟩ := c
  cases hp <;> cases tp <;> cases hov <;>
    simp [showTitlePopup, hideHoverPreview, stopCtrlPoll]

theorem startCtrlPoll_state (c : Cfg) : (startCtrlPoll c).state = c.state := by
  obtain ⟨st, pl, cl, cp, hp, tp, hov, ph, th, hti, reg, lg⟩ := c
  cases st <;> cases hp <;> cases tp <;>
    simp [startCtrlPoll, stopCtrlPoll, hasPreviewCb, hasTitleCb]

theorem enterState_state (c : Cfg) (s : States) : (enterState c s).state = c.state := by
  cases s
  · exact hideAllPreviews_state _
  · show Cfg.state (if _ then startCtrlPoll _ else _) = _
    split
    · rw [startCtrlPoll_state, showHoverPreview_state]; rfl
    · rw [showHoverPreview_state]; rfl
  · show Cfg.state (if _ then startCtrlPoll _ else _) = _
    split
    · rw [startCtrlPoll_state, showTitlePopup_state]; rfl
    · rw [showTitlePopup_state]; rfl
  · rfl

theorem transition_state (c : Cfg) (s : States) (h : s ≠ c.state) :
    (transition c s).state = s := by
  unfold transition
  rw [if_neg (by simp [Ne.symm h])]
  rw [enterState_state]

theorem forceIdle_state (c : Cfg) : (forceIdle c).state = States.IDLE := by
  unfold forceIdle
  by_cases h : (onForceIdleCb c).state = States.IDLE
  · rw [transition, if_pos (by simp [h])]; exact h
  · exact transition_state _ _ (fun he => h he.symm)

theorem hideHoverPreview_registered (c : Cfg) :
    (hideHoverPreview c).registered = c.registered := by
  unfold hideHoverPreview; split <;> rfl

theorem hideTitlePopup_registered (c : Cfg) :
    (hideTitlePopup c).registered = c.registered := by
  unfold hideTitlePopup; split <;> rfl

theorem showHoverPreview_registered (c : Cfg) :
    (showHoverPreview c).registered = c.registered := by
  obtain ⟨st, pl, cl, cp, hp, tp, hov, ph, th, hti, reg, lg⟩ := c
  cases hp <;> cases tp <;> cases hov <;> cases ph <;>
    simp [showHoverPreview, hideTitlePopup, stopCtrlPoll]

theorem showTitlePopup_registered (c : Cfg) :
    (showTitlePopup c).registered = c.registered := by
  obtain ⟨st, pl, cl, cp, hp, tp, hov, ph, th, hti, reg, lg⟩ := c
  cases hp <;> cases tp <;> cases hov <;>
    simp [showTitlePopup, hideHoverPreview, stopCtrlPoll]

theorem startCtrlPoll_registered (c : Cfg) :
    (startCtrlPoll c).registered = c.registered := by
  obtain ⟨st, pl, cl, cp, hp, tp, hov, ph, th, hti, reg, lg⟩ := c
  cases st <;> cases hp <;> cases tp <;>
    simp [startCtrlPoll, stopCtrlPoll, hasPreviewCb, hasTitleCb]

theorem hideAllPreviews_registered (c : Cfg) :
    (hideAllPreviews c).registered = c.registered := by
  unfold hideAllPreviews
  rw [hideTitlePopup_registered, hideHoverPreview_registered]

theorem enterState_registered (c : Cfg) (s : States) :
    (enterState c s).registered = c.registered := by
  cases s
  · exact hideAllPreviews_registered _
  · show Cfg.registered (if _ then startCtrlPoll _ else _) = _
    split
    · rw [startCtrlPoll_registered, showHoverPreview_registered]; rfl
    · rw [showHoverPreview_registered]; rfl
  · show Cfg.registered (if _ then startCtrlPoll _ else _) = _
    split
    · rw [startCtrlPoll_registered, showTitlePopup_registered]; rfl
    · rw [showTitlePopup_registered]; rfl
  · rfl

theorem exitState_registered (c : Cfg) (s : States) :
    (exitState c s).registered = c.registered := by
  obtain ⟨st, pl, cl, cp, hp, tp, hov, ph, th, hti, reg, lg⟩ := c
  cases s <;> cases st <;>
    simp [exitState, stopCtrlPoll, stopCleanupTimer]

theorem transition_registered (c : Cfg) (s : States) :
    (transition c s).registered = c.registered := by
  by_cases h : c.state = s
  · simp [transition, h]
  · rw [transition, if_neg (by simp [h])]
    rw [enterState_registered]
    show Cfg.registered (exitState c c.state) = _
    rw [exitState_registered]

theorem hideHoverPreview_log (c : Cfg) : (hideHoverPreview c).log = c.log := by
  unfold hideHoverPreview; split <;> rfl

theorem hideTitlePopup_log (c : Cfg) : (hideTitlePopup c).log = c.log := by
  unfold hideTitlePopup; split <;> rfl

theorem enterState_IDLE_log (c : Cfg) :
    (enterState c States.IDLE).log = c.log ++ [Ev.hideAllCb] := by
  show (hideAllPreviews (stopCleanupTimer c)).log = _
  rw [hideAllPreviews, hideTitlePopup_log, hideHoverPreview_log]
  rfl

theorem exitState_log (c : Cfg) (s : States) : (exitState c s).log = c.log := by
  obtain ⟨st, pl, cl, cp, hp, tp, hov, ph, th, hti, reg, lg⟩ := c
  cases s <;> cases st <;>
    simp [exitState, stopCtrlPoll, stopCleanupTimer]

theorem transition_IDLE_log (c : Cfg) (h : c.state ≠ States.IDLE) :
    (transition c States.IDLE).log = c.log ++ [Ev.hideAllCb] := by
  rw [transition, if_neg (by simp [h])]
  rw [enterState_IDLE_log]
  show (exitState c c.state).log ++ _ = _
  rw [exitState_log]

/- The claims. -/

/-- C1: the claimed invariant — the poll handle non-null only in a showing
state, the cleanup handle non-null only in CLEANUP_DELAY, never both —
fails on the code: after hover enter, debounce, hover leave, the machine
sits in CLEANUP_DELAY with BOTH handles non-null, because `_exitState`
tests `this._state` before `transition` has updated it and therefore never
stops the Ctrl poll when leaving a showing state.  This theorem evaluates
the code at that failing input. -/
theorem c1_both_timers_active_in_cleanup_delay :
    (run Cfg.init traceToCleanup).state = States.CLEANUP_DELAY ∧
    (run Cfg.init traceToCleanup).ctrlPollId = true ∧
    (run Cfg.init traceToCleanup).cleanupTimeoutId = true := by
  decide

/-- C2: the claim — `forceIdle` from every state returns with state IDLE and
both timer handles null — fails on the code: a click (which runs
`forceIdle('left click')`) while SHOWING_PREVIEW with the poll running
returns with state IDLE but the Ctrl-poll handle still non-null, for the
same `_exitState` reason.  This theorem evaluates the code at that failing
input. -/
theorem c2_forceIdle_leaves_poll_handle :
    (run Cfg.init (traceShowPreview ++ [Event.click])).state = States.IDLE ∧
    (run Cfg.init (traceShowPreview ++ [Event.click])).ctrlPollId = true := by
  decide

/-- C3: the claim — the exit action stops the poll iff the destination is
not a showing state — fails on the code: from SHOWING_PREVIEW with the
poll running, transitions to IDLE and to CLEANUP_DELAY both leave the poll
handle set, because `_exitState`'s `isStayingInPreview` reads `this._state`
(still the old, showing, state).  This theorem evaluates the code at those
failing inputs. -/
theorem c3_exit_showing_keeps_poll :
    (run Cfg.init traceShowPreview).state = States.SHOWING_PREVIEW ∧
    (run Cfg.init traceShowPreview).ctrlPollId = true ∧
    (transition (run Cfg.init traceShowPreview) States.IDLE).ctrlPollId = true ∧
    (transition (run Cfg.init traceShowPreview) States.CLEANUP_DELAY).ctrlPollId = true := by
  decide

/-- C4 counterexample: a registered machine reaches IDLE with its registry
entry still in place — hover enter, debounce, hover leave, then the
cleanup timer completes: `transition(IDLE)` runs directly (not via
`forceIdle`), so `unregisterPreview` is never called and the active slot
still records a machine in IDLE, refuting the claimed invariant. -/
theorem c4_registry_retains_idle_machine :
    (run Cfg.init (traceToCleanup ++ [Event.cleanupFired])).state = States.IDLE ∧
    (run Cfg.init (traceToCleanup ++ [Event.cleanupFired])).registered = true := by
  decide

/-- C4 amended: the registry entry of a machine is cleared on every
`forceIdle` (whose `onForceIdle` callback runs `unregisterPreview`), but
the cleanup-timer completion path never touches the registry — it leaves
`registered` unchanged while moving a CLEANUP_DELAY machine (whose
`shouldAbortCleanup` is false) to IDLE, so the active slot may record an
IDLE machine. -/
theorem c4_amended_unregister_paths (c : Cfg) :
    (forceIdle c).registered = false ∧
    (cleanupTimerFired c).registered = c.registered ∧
    (c.state = States.CLEANUP_DELAY → shouldAbortCleanup c = false →
      (cleanupTimerFired c).state = States.IDLE) := by
  refine ⟨?_, ?_, ?_⟩
  · rw [forceIdle, transition_registered]
    rfl
  · by_cases ha : shouldAbortCleanup c = true
    · simp [cleanupTimerFired, ha]
    · rw [cleanupTimerFired, if_neg ha]
      show (transition c States.IDLE).registered = _
      rw [transition_registered]
  · intro h hab
    rw [cleanupTimerFired, if_neg (by simp [hab])]
    show (transition c States.IDLE).state = _
    exact transition_state _ _ (by rw [h]; decide)

theorem c4_amended_unregister_paths_witness :
    ((run Cfg.init traceToCleanup).state = States.CLEANUP_DELAY ∧
     shouldAbortCleanup (run Cfg.init traceToCleanup) = false) ∧
    (forceIdle (run Cfg.init traceToCleanup)).registered = false ∧
    (cleanupTimerFired (run Cfg.init traceToCleanup)).state = States.IDLE :=
  ⟨⟨by decide, by decide⟩,
   (c4_amended_unregister_paths (run Cfg.init traceToCleanup)).1,
   (c4_amended_unregister_paths (run Cfg.init traceToCleanup)).2.2 (by decide) (by decide)⟩

/-- C5: `registerPreview(B)` while a different controller A is active:
when A's machine is in SHOWING_PREVIEW, SHOWING_TITLE or CLEANUP_DELAY it
is forced to IDLE and then B is recorded (B's machine untouched); when A's
machine is already IDLE, A is untouched and B is simply recorded. -/
theorem c5_registerPreview_forces_other_idle (s : RegSys) (hA : s.active = Slot.ctlA) :
    ((s.mA.state = States.SHOWING_PREVIEW ∨ s.mA.state = States.SHOWING_TITLE ∨
        s.mA.state = States.CLEANUP_DELAY) →
      RegSys.registerPreviewB s = { s with mA := forceIdle s.mA, active := Slot.ctlB } ∧
      (RegSys.registerPreviewB s).mA.state = States.IDLE) ∧
    (s.mA.state = States.IDLE →
      RegSys.registerPreviewB s = { s with active := Slot.ctlB }) := by
  constructor
  · intro hui
    have hshow : (isShowingPreview s.mA || s.mA.state == States.CLEANUP_DELAY) = true := by
      rcases hui with h | h | h <;> simp [isShowingPreview, h]
    constructor
    · rw [RegSys.registerPreviewB]
      simp only [hA, hshow]
      rw [RegSys.forceIdleA]
      simp [hA]
    · rw [RegSys.registerPreviewB]
      simp only [hA, hshow]
      rw [RegSys.forceIdleA]
      simp [hA, forceIdle_state]
  · intro hI
    rw [RegSys.registerPreviewB]
    simp [hA, isShowingPreview, hI]

theorem c5_registerPreview_forces_other_idle_witness :
    (sysAB.active = Slot.ctlA ∧ sysAB.mA.state = States.SHOWING_PREVIEW) ∧
    (RegSys.registerPreviewB sysAB).mA.state = States.IDLE :=
  ⟨⟨by decide, by decide⟩,
   ((c5_registerPreview_forces_other_idle sysAB (by decide)).1 (Or.inl (by decide))).2⟩

/-- C6: when the cleanup timer fires in CLEANUP_DELAY, the
`shouldAbortCleanup` predicate is exactly icon-hovered OR preview-overlay-
hovered OR title-overlay-hovered; if it holds, the only effect is nulling
the timer handle (the state stays CLEANUP_DELAY); if not, the machine
transitions to IDLE. -/
theorem c6_cleanup_fire_behavior (c : Cfg) (h : c.state = States.CLEANUP_DELAY) :
    shouldAbortCleanup c =
      (c.hover || c.hoverPreview && c.previewHover || c.titlePopup && c.titleHover) ∧
    (shouldAbortCleanup c = true →
      cleanupTimerFired c = { c with cleanupTimeoutId := false }) ∧
    (shouldAbortCleanup c = false →
      (cleanupTimerFired c).state = States.IDLE ∧
      (cleanupTimerFired c).cleanupTimeoutId = false) := by
  refine ⟨?_, ?_, ?_⟩
  · obtain ⟨st, pl, cl, cp, hp, tp, hov, ph, th, hti, reg, lg⟩ := c
    cases hp <;> cases tp <;> simp [shouldAbortCleanup]
  · intro ha
    rw [cleanupTimerFired, if_pos ha]
  · intro hab
    rw [cleanupTimerFired, if_neg (by simp [hab])]
    refine ⟨?_, rfl⟩
    show (transition c States.IDLE).state = _
    exact transition_state _ _ (by rw [h]; decide)

theorem c6_cleanup_fire_behavior_witness :
    ((run Cfg.init traceToCleanup).state = States.CLEANUP_DELAY ∧
     shouldAbortCleanup (run Cfg.init traceToCleanup) = false) ∧
    (cleanupTimerFired (run Cfg.init traceToCleanup)).state = States.IDLE :=
  ⟨⟨by decide, by decide⟩,
   ((c6_cleanup_fire_behavior (run Cfg.init traceToCleanup) (by decide)).2.2 (by decide)).1⟩

/-- C7: an icon hover-enter in IDLE only arms the 30 ms debounce (no state
change, no `showPreview` call); the debounce body acts only when the
machine is still IDLE and then (Ctrl up) enters SHOWING_PREVIEW — when the
machine is no longer IDLE the body just nulls the handle; a hover-leave
before the debounce fires cancels the pending timeout, never invokes
`showPreview`, and leaves the state IDLE. -/
theorem c7_debounced_hover_enter (c d e : Cfg) (ctrlA ctrlB : Bool)
    (hc : c.state = States.IDLE) (he : e.state = States.IDLE)
    (hd : d.state ≠ States.IDLE) :
    ((onHoverChanged c true ctrlA).state = States.IDLE ∧
     (onHoverChanged c true ctrlA).hoverTimeoutId = true ∧
     (onHoverChanged c true ctrlA).log = c.log) ∧
    ((onHoverChanged (onHoverChanged c true ctrlA) false ctrlB).state = States.IDLE ∧
     (onHoverChanged (onHoverChanged c true ctrlA) false ctrlB).hoverTimeoutId = false ∧
     (onHoverChanged (onHoverChanged c true ctrlA) false ctrlB).log = c.log) ∧
    (onHoverDebounceFired e false).state = States.SHOWING_PREVIEW ∧
    onHoverDebounceFired d ctrlB = { d with hoverTimeoutId := false } := by
  have hc1 : onHoverChanged c true ctrlA = { c with hover := true, hoverTimeoutId := true } := by
    obtain ⟨st, pl, cl, cp, hp, tp, hov, ph, th, hti, reg, lg⟩ := c
    simp only [Cfg.state] at hc
    subst hc
    cases hti <;> simp [onHoverChanged, isShowingPreview, onIconHoverLeave]
  have hc2 : onHoverChanged { c with hover := true, hoverTimeoutId := true } false ctrlB
      = { c with hover := false, hoverTimeoutId := false } := by
    obtain ⟨st, pl, cl, cp, hp, tp, hov, ph, th, hti, reg, lg⟩ := c
    simp only [Cfg.state] at hc
    subst hc
    simp [onHoverChanged, isShowingPreview, onIconHoverLeave]
  refine ⟨?_, ?_, ?_, ?_⟩
  · rw [hc1]
    exact ⟨hc, rfl, rfl⟩
  · rw [hc1, hc2]
    exact ⟨hc, rfl, rfl⟩
  · rw [onHoverDebounceFired, if_pos (by simp [he])]
    rw [onIconHoverEnter]
    rw [if_neg (by simp [registerSelf, he]), if_pos (by simp [registerSelf, he])]
    show (transition _ (if false = true then _ else States.SHOWING_PREVIEW)).state = _
    rw [if_neg (by decide)]
    exact transition_state _ _ (by simp [checkCtrlKeyState, registerSelf, he])
  · rw [onHoverDebounceFired, if_neg (by simp [hd])]

theorem c7_debounced_hover_enter_witness :
    (Cfg.init.state = States.IDLE ∧
     (run Cfg.init traceShowPreview).state ≠ States.IDLE) ∧
    (onHoverChanged Cfg.init true false).state = States.IDLE ∧
    (onHoverDebounceFired Cfg.init false).state = States.SHOWING_PREVIEW :=
  ⟨⟨by decide, by decide⟩,
   ((c7_debounced_hover_enter Cfg.init (run Cfg.init traceShowPreview) Cfg.init
      false false (by decide) (by decide) (by decide)).1).1,
   ((c7_debounced_hover_enter Cfg.init (run Cfg.init traceShowPreview) Cfg.init
      false false (by decide) (by decide) (by decide)).2.2).1⟩

/-- C8: `transition` performs every transition between distinct states,
including the pair absent from the valid-transition table
(IDLE to CLEANUP_DELAY, which only triggers the warning flag), so an
out-of-table move is logged but never rejected. -/
theorem c8_transition_always_performed (c : Cfg) (s : States) (h : s ≠ c.state) :
    (transition c s).state = s ∧
    transitionWarns States.IDLE States.CLEANUP_DELAY = true :=
  ⟨transition_state c s h, by decide⟩

theorem c8_transition_always_performed_witness :
    States.CLEANUP_DELAY ≠ Cfg.init.state ∧
    (transition Cfg.init States.CLEANUP_DELAY).state = States.CLEANUP_DELAY ∧
    transitionWarns States.IDLE States.CLEANUP_DELAY = true :=
  ⟨by decide,
   (c8_transition_always_performed Cfg.init States.CLEANUP_DELAY (by decide)).1,
   (c8_transition_always_performed Cfg.init States.CLEANUP_DELAY (by decide)).2⟩

/-- C9: `forceIdle` invokes `onForceIdle` (the registry unregistration)
first — in the callback log it precedes the `hideAll` that the IDLE enter
action emits after the state field changes — and when the machine is
already IDLE the transition early-returns on the self-transition, so
`onForceIdle` is still invoked but no state change and no `hideAll`
occur. -/
theorem c9_forceIdle_callback_order (c : Cfg) :
    (c.state ≠ States.IDLE →
      (forceIdle c).log = c.log ++ [Ev.forceIdleCb, Ev.hideAllCb]) ∧
    (c.state = States.IDLE →
      forceIdle c = { c with registered := false, log := c.log ++ [Ev.forceIdleCb] }) := by
  constructor
  · intro h
    rw [forceIdle, transition_IDLE_log _ (by simpa [onForceIdleCb] using h)]
    simp [onForceIdleCb]
  · intro h
    rw [forceIdle, transition, if_pos (by simp [onForceIdleCb, h])]
    rfl

theorem c9_forceIdle_callback_order_witness :
    Cfg.init.state = States.IDLE ∧
    forceIdle Cfg.init = { Cfg.init with registered := false, log := [Ev.forceIdleCb] } :=
  ⟨rfl, (c9_forceIdle_callback_order Cfg.init).2 rfl⟩

/-- C10: `_startCtrlPoll` schedules no timer when the content predicate of
the current state is false; and a machine can enter and remain in
SHOWING_TITLE with no poll timer: after the show-title callback aborts
(icon no longer hovered) the machine sits in SHOWING_TITLE with the poll
handle null and no other timer pending. -/
theorem c10_poll_skipped_without_content :
    (∀ c : Cfg,
      ((c.state == States.SHOWING_PREVIEW && hasPreviewCb c) ||
       (c.state == States.SHOWING_TITLE && hasTitleCb c)) = false →
      (startCtrlPoll c).ctrlPollId = false) ∧
    ((run Cfg.init traceTitleNoPoll).state = States.SHOWING_TITLE ∧
     (run Cfg.init traceTitleNoPoll).ctrlPollId = false ∧
     (run Cfg.init traceTitleNoPoll).cleanupTimeoutId = false ∧
     (run Cfg.init traceTitleNoPoll).hoverTimeoutId = false ∧
     (run Cfg.init traceTitleNoPoll).titlePopup = false) := by
  constructor
  · intro c h
    have h2 : (((stopCtrlPoll c).state == States.SHOWING_PREVIEW &&
          hasPreviewCb (stopCtrlPoll c)) ||
        ((stopCtrlPoll c).state == States.SHOWING_TITLE &&
          hasTitleCb (stopCtrlPoll c))) = false := h
    simp only [startCtrlPoll]
    rw [h2]
    rfl
  · decide

theorem c10_poll_skipped_without_content_witness :
    ((cfgTitleNoContent.state == States.SHOWING_PREVIEW && hasPreviewCb cfgTitleNoContent) ||
     (cfgTitleNoContent.state == States.SHOWING_TITLE && hasTitleCb cfgTitleNoContent)) = false ∧
    (startCtrlPoll cfgTitleNoContent).ctrlPollId = false :=
  ⟨by decide, c10_poll_skipped_without_content.1 cfgTitleNoContent (by decide)⟩

end WorkspacesOrganizer
